import Mathlib

/-!
Shallow embedding of `src/crates/libtiny_client/src/stream.rs` (the `tiny`
IRC client's unified transport stream) and proofs about the spec's claims.

The file models both conditional-compilation builds of the module:
the `tls-native` build (backed by `native_tls` / `tokio_native_tls`) and the
`tls-rustls` build (backed by `rustls` / `tokio_rustls`).

External-library behaviour that the module calls into is embedded from the
libraries' signatures and documented behaviour:
  * `tokio::net::TcpStream::connect` returns `io::Result<TcpStream>`;
  * `tokio_native_tls::TlsConnector::connect` returns
    `Result<TlsStream<S>, native_tls::Error>` — handshake failures carry the
    TLS-layer error type;
  * `tokio_rustls::TlsConnector::connect` returns `io::Result<TlsStream<S>>`
    — handshake failures arrive as `std::io::Error` values (the rustls error
    is wrapped inside an `io::Error`), not as `rustls::Error`;
  * `rustls_pemfile::certs` / `pkcs8_private_keys` return all matching PEM
    blocks in file order, or `Err` on malformed PEM; `Vec::pop` removes and
    returns the LAST element;
  * `native_tls::Identity::from_pkcs8` fails when the certificate or the
    PKCS#8 private key is missing or malformed;
  * `rustls::ServerName::try_from(&str)` succeeds on syntactically valid DNS
    names and on IP-address literals, and fails otherwise.

Nondeterministic network effects (whether a TCP connect or a TLS handshake
succeeds, and what the peer does) are modelled by explicit environment
records of outcome functions; Rust panics (`unwrap` / `expect`) are modelled
by the `Panics` outcome type.
-/

namespace TinyStream

/-- Model of a byte string. -/
abbrev Bytes := List Nat

/-- Model of `std::io::Error` (the payload of transport failures). -/
structure IoErr where
  code : Nat
deriving DecidableEq, Repr

/-- Model of the TLS-layer error type: `native_tls::Error` in the
`tls-native` build, `tokio_rustls::rustls::Error` in the `tls-rustls`
build (the source aliases either one as `TlsError`). -/
structure TlsErr where
  code : Nat
deriving DecidableEq, Repr

/-- Model of `std::net::SocketAddr`. -/
structure SocketAddr where
  addr : Nat
  port : Nat
deriving DecidableEq, Repr

/-- Model of a connected `tokio::net::TcpStream`. -/
structure TcpStreamR where
  sock : Nat
deriving DecidableEq, Repr

/-- Model of a negotiated TLS session over a TCP stream
(`tokio_native_tls::TlsStream<TcpStream>` resp.
`tokio_rustls::client::TlsStream<TcpStream>`). -/
structure TlsStreamR where
  tcp : TcpStreamR
  session : Nat
deriving DecidableEq, Repr

/-- The `Stream` enum of `stream.rs`:
`enum Stream { TcpStream(Box<TcpStream>), TlsStream(Box<TlsStream<TcpStream>>) }`.
The `Box` is a heap-layout device only; the model holds the payloads
directly. -/
inductive Stream
  | TcpStream : TcpStreamR → Stream
  | TlsStream : TlsStreamR → Stream
deriving DecidableEq, Repr

/-- The `StreamError` enum of `stream.rs`:
`enum StreamError { TlsError(TlsError), IoError(std::io::Error) }`. -/
inductive StreamError
  | TlsError : TlsErr → StreamError
  | IoError : IoErr → StreamError
deriving DecidableEq, Repr

/-- Model of `impl From<TlsError> for StreamError`. -/
def StreamError.fromTls (e : TlsErr) : StreamError := StreamError.TlsError e

/-- Model of `impl From<std::io::Error> for StreamError`. -/
def StreamError.fromIo (e : IoErr) : StreamError := StreamError.IoError e

/-- Classification: is this failure a transport-level (I/O) failure? -/
def StreamError.isTransport : StreamError → Bool
  | StreamError.TlsError _ => false
  | StreamError.IoError _ => true

/-- Classification: is this failure an encryption-layer failure? -/
def StreamError.isEncryption : StreamError → Bool
  | StreamError.TlsError _ => true
  | StreamError.IoError _ => false

/-- Outcome of running Rust code that may panic (`unwrap` / `expect`):
either a value or a panic carrying the panic message. -/
inductive Panics (α : Type)
  | ok : α → Panics α
  | panicked : String → Panics α
deriving DecidableEq, Repr

/-! ## PEM model (client-identity bytes) -/

/-- One PEM block of the client-identity bytes, as the PEM parsers classify
them: a certificate block, a PKCS#8 private-key block, or some other block
type. The payload is an abstract identifier of the DER contents. -/
inductive PemBlock
  | certificate : Nat → PemBlock
  | pkcs8Key : Nat → PemBlock
  | other : Nat → PemBlock
deriving DecidableEq, Repr

/-- Model of the raw client-identity bytes: whether they are syntactically
well-formed PEM, and the list of blocks they contain in file order. -/
structure PemBytes where
  wellFormed : Bool
  blocks : List PemBlock
deriving DecidableEq, Repr

/-- The certificate payloads of a block list, in file order. -/
def pemCerts (blocks : List PemBlock) : List Nat :=
  blocks.filterMap fun b =>
    match b with
    | PemBlock.certificate d => some d
    | _ => none

/-- The PKCS#8 private-key payloads of a block list, in file order. -/
def pemKeys (blocks : List PemBlock) : List Nat :=
  blocks.filterMap fun b =>
    match b with
    | PemBlock.pkcs8Key d => some d
    | _ => none

/-- Model of `rustls_pemfile::certs`: all certificate blocks in file order,
or an error when the PEM input is malformed. -/
def rustls_pemfile_certs (pem : PemBytes) : Except Unit (List Nat) :=
  if pem.wellFormed then Except.ok (pemCerts pem.blocks) else Except.error ()

/-- Model of `rustls_pemfile::pkcs8_private_keys`: all PKCS#8 private-key
blocks in file order, or an error when the PEM input is malformed. -/
def rustls_pemfile_pkcs8_private_keys (pem : PemBytes) : Except Unit (List Nat) :=
  if pem.wellFormed then Except.ok (pemKeys pem.blocks) else Except.error ()

/-! ## tls-native build: connector -/

/-- Model of `native_tls::Identity`: the parsed certificate chain and
private key. -/
structure NativeIdentity where
  certChain : List Nat
  key : Nat
deriving DecidableEq, Repr

/-- Model of `native_tls::Identity::from_pkcs8(pem, pem)`: parses the
certificate chain and the PKCS#8 private key from the same bytes; fails when
the bytes are malformed, contain no certificate, or contain no private
key. -/
def Identity_from_pkcs8 (pem : PemBytes) : Except Unit NativeIdentity :=
  if pem.wellFormed then
    match pemCerts pem.blocks, (pemKeys pem.blocks).head? with
    | [], _ => Except.error ()
    | _, none => Except.error ()
    | certs, some k => Except.ok ⟨certs, k⟩
  else Except.error ()

/-- Model of `tokio_native_tls::TlsConnector` (the encryption context of the
`tls-native` build): platform trust anchors plus an optional client
identity. -/
structure NativeConnector where
  identity : Option NativeIdentity
deriving DecidableEq, Repr

/-- The `tls-native` `tls_connector(pem)`: builds a connector, installing a
client identity parsed by `Identity::from_pkcs8` when `pem` is present;
the `.expect("X509 Cert and private key")` panics when parsing fails. -/
def tls_connector_native (pem : Option PemBytes) : Panics NativeConnector :=
  match pem with
  | none => Panics.ok ⟨none⟩
  | some p =>
    match Identity_from_pkcs8 p with
    | Except.ok ident => Panics.ok ⟨some ident⟩
    | Except.error _ => Panics.panicked "X509 Cert and private key"

/-- The `tls-native` `lazy_static! TLS_CONNECTOR: tls_connector(None)`:
the process-wide default connector value (its lazy initializer). -/
def TLS_CONNECTOR_native : Panics NativeConnector := tls_connector_native none

/-! ## tls-rustls build: connector -/

/-- Model of the platform trust anchors loaded by
`rustls_native_certs::load_native_certs()`. -/
def nativeRoots : List Nat := [1001, 1002]

/-- Model of `tokio_rustls::TlsConnector` (the encryption context of the
`tls-rustls` build): root store plus optional client-auth certificate chain
and key. -/
structure RustlsConnector where
  roots : List Nat
  clientAuth : Option (List Nat × Nat)
deriving DecidableEq, Repr

/-- The `tls-rustls` `tls_connector(sasl)`: builds a `ClientConfig` with the
platform roots; when `sasl` is present, extracts a certificate and a private
key from the PEM bytes with `rustls_pemfile::certs(..).pop()` and
`rustls_pemfile::pkcs8_private_keys(..).pop()` (`pop` takes the LAST block
of each kind) and installs `vec![cert]` and the key as the client identity;
each `.expect(..)` panics when parsing fails or a block kind is absent.
`ClientConfig::with_client_auth_cert` accepts any parsed PKCS#8 key (it does
not check that key and certificate correspond), so its `.expect` is modelled
as succeeding on parsed values. -/
def tls_connector_rustls (sasl : Option PemBytes) : Panics RustlsConnector :=
  match sasl with
  | none => Panics.ok ⟨nativeRoots, none⟩
  | some pem =>
    match rustls_pemfile_certs pem with
    | Except.error _ => Panics.panicked "Could not parse PKCS8 PEM"
    | Except.ok certs =>
      match certs.getLast? with
      | none => Panics.panicked "Cert PEM must have at least one cert"
      | some cert =>
        match rustls_pemfile_pkcs8_private_keys pem with
        | Except.error _ => Panics.panicked "Could not parse PKCS8 PEM"
        | Except.ok keys =>
          match keys.getLast? with
          | none => Panics.panicked "Cert PEM must have at least one private key"
          | some key => Panics.ok ⟨nativeRoots, some ([cert], key)⟩

/-- The `tls-rustls` `lazy_static! TLS_CONNECTOR: tls_connector(None)`:
the process-wide default connector value (its lazy initializer). -/
def TLS_CONNECTOR_rustls : Panics RustlsConnector := tls_connector_rustls none

/-! ## rustls ServerName -/

/-- Model of `rustls::ServerName`. -/
inductive ServerName
  | dnsName : String → ServerName
  | ipAddress : Nat → ServerName
deriving DecidableEq, Repr

/-- Is `c` a character allowed inside a DNS-name label? -/
def isDnsChar (c : Char) : Bool :=
  (Char.ofNat 97 ≤ c && c ≤ Char.ofNat 122) ||
  (Char.ofNat 65 ≤ c && c ≤ Char.ofNat 90) ||
  (Char.ofNat 48 ≤ c && c ≤ Char.ofNat 57) ||
  c = Char.ofNat 45

/-- Split a character list at the dots. -/
def splitOnDot : List Char → List (List Char)
  | [] => [[]]
  | c :: cs =>
    let rest := splitOnDot cs
    if c = Char.ofNat 46 then [] :: rest
    else
      match rest with
      | [] => [[c]]
      | l :: ls => (c :: l) :: ls

/-- Is `l` a valid DNS-name label: nonempty, at most 63 characters, only
letters, digits and hyphens, and no leading or trailing hyphen? -/
def validDnsLabel (l : List Char) : Bool :=
  !l.isEmpty && l.length ≤ 63 && l.all isDnsChar &&
    l.head? ≠ some (Char.ofNat 45) && l.getLast? ≠ some (Char.ofNat 45)

/-- Is `s` a syntactically valid DNS name (per the validation
`rustls::ServerName::try_from` performs via webpki)? -/
def validDnsName (s : String) : Bool :=
  !s.data.isEmpty && (splitOnDot s.data).all validDnsLabel

/-- Is `l` a valid decimal IPv4 octet: nonempty digits, no redundant leading
zero, value at most 255? -/
def validOctet (l : List Char) : Bool :=
  !l.isEmpty && l.all Char.isDigit &&
    (l.length = 1 || l.head? ≠ some (Char.ofNat 48)) &&
    (l.foldl (fun acc c => acc * 10 + (c.toNat - 48)) 0) ≤ 255

/-- Parse `s` as an IPv4-address literal (the `IpAddr` fallback of
`ServerName::try_from`), returning an abstract address number. -/
def parseIpv4 (s : String) : Option Nat :=
  let parts := splitOnDot s.data
  if parts.length = 4 && parts.all validOctet then
    some (parts.foldl (fun acc l =>
      acc * 256 + l.foldl (fun a c => a * 10 + (c.toNat - 48)) 0) 0)
  else none

/-- Model of `rustls::ServerName::try_from(&str)`: a DNS name when the
string validates as one, else an IP address when it parses as one, else
failure. -/
def ServerName_try_from (s : String) : Option ServerName :=
  if validDnsName s then some (ServerName.dnsName s)
  else
    match parseIpv4 s with
    | some a => some (ServerName.ipAddress a)
    | none => none

/-! ## Connection establishers -/

/-- Network environment of the `tls-native` build: the outcome of
`TcpStream::connect` at each address, and the outcome of
`tokio_native_tls::TlsConnector::connect(host_name, tcp_stream)` for each
connector, host name and TCP stream. The handshake error type is the
TLS-layer error (`native_tls::Error`), per the library signature. -/
structure NativeNetEnv where
  tcpConnect : SocketAddr → Except IoErr TcpStreamR
  handshake : NativeConnector → String → TcpStreamR → Except TlsErr TlsStreamR

/-- Network environment of the `tls-rustls` build. Per the
`tokio_rustls::TlsConnector::connect` signature the handshake returns
`io::Result`, so a handshake failure is an `io::Error` value (the rustls
error wrapped inside it). -/
structure RustlsNetEnv where
  tcpConnect : SocketAddr → Except IoErr TcpStreamR
  handshake : RustlsConnector → ServerName → TcpStreamR → Except IoErr TlsStreamR

/-- `Stream::new_tcp(addr)`: connect the raw TCP stream and wrap it in the
`TcpStream` variant; `?` converts the connect error via
`From<std::io::Error>`. -/
def Stream.new_tcp (tcpConnect : SocketAddr → Except IoErr TcpStreamR)
    (addr : SocketAddr) : Except StreamError Stream :=
  match tcpConnect addr with
  | Except.ok tcp_stream => Except.ok (Stream.TcpStream tcp_stream)
  | Except.error e => Except.error (StreamError.fromIo e)

/-- `Stream::new_tls` of the `tls-native` build: TCP connect (`?` maps the
error via `From<std::io::Error>`), then `tls_connector(sasl).connect(..)`
when `sasl.is_some()` else `TLS_CONNECTOR.connect(..)` (`?` maps the
handshake error via `From<TlsError>`), then wrap in the `TlsStream`
variant. -/
def Stream.new_tls_native (env : NativeNetEnv) (addr : SocketAddr)
    (host_name : String) (sasl : Option PemBytes) :
    Panics (Except StreamError Stream) :=
  match env.tcpConnect addr with
  | Except.error e => Panics.ok (Except.error (StreamError.fromIo e))
  | Except.ok tcp_stream =>
    match (if sasl.isSome then tls_connector_native sasl else TLS_CONNECTOR_native) with
    | Panics.panicked msg => Panics.panicked msg
    | Panics.ok connector =>
      match env.handshake connector host_name tcp_stream with
      | Except.error e => Panics.ok (Except.error (StreamError.fromTls e))
      | Except.ok tls_stream => Panics.ok (Except.ok (Stream.TlsStream tls_stream))

/-- `Stream::new_tls` of the `tls-rustls` build: TCP connect (`?` maps the
error via `From<std::io::Error>`), then
`ServerName::try_from(host_name).unwrap()` (panic on failure), then
`tls_connector(sasl).connect(..)` when `sasl.is_some()` else
`TLS_CONNECTOR.connect(..)` — the handshake returns `io::Result`, so `?`
maps a handshake failure via `From<std::io::Error>` — then wrap in the
`TlsStream` variant. -/
def Stream.new_tls_rustls (env : RustlsNetEnv) (addr : SocketAddr)
    (host_name : String) (sasl : Option PemBytes) :
    Panics (Except StreamError Stream) :=
  match env.tcpConnect addr with
  | Except.error e => Panics.ok (Except.error (StreamError.fromIo e))
  | Except.ok tcp_stream =>
    match ServerName_try_from host_name with
    | none => Panics.panicked "ServerName::try_from(host_name).unwrap()"
    | some name =>
      match (if sasl.isSome then tls_connector_rustls sasl else TLS_CONNECTOR_rustls) with
      | Panics.panicked msg => Panics.panicked msg
      | Panics.ok connector =>
        match env.handshake connector name tcp_stream with
        | Except.error e => Panics.ok (Except.error (StreamError.fromIo e))
        | Except.ok tls_stream => Panics.ok (Except.ok (Stream.TlsStream tls_stream))

/-! ## AsyncRead / AsyncWrite dispatch -/

/-- Model of `std::task::Poll`. -/
inductive Poll (α : Type)
  | ready : α → Poll α
  | pending
deriving DecidableEq, Repr

/-- I/O environment: the poll behaviour of the two underlying stream types
(`TcpStream` and `TlsStream<TcpStream>`). Each operation may leave the
underlying stream in a new state, so outcomes carry the successor state. -/
structure IoEnv where
  tcpRead : TcpStreamR → Poll (Except IoErr (TcpStreamR × Bytes))
  tlsRead : TlsStreamR → Poll (Except IoErr (TlsStreamR × Bytes))
  tcpWrite : TcpStreamR → Bytes → Poll (Except IoErr (TcpStreamR × Nat))
  tlsWrite : TlsStreamR → Bytes → Poll (Except IoErr (TlsStreamR × Nat))
  tcpFlush : TcpStreamR → Poll (Except IoErr TcpStreamR)
  tlsFlush : TlsStreamR → Poll (Except IoErr TlsStreamR)
  tcpShutdown : TcpStreamR → Poll (Except IoErr TcpStreamR)
  tlsShutdown : TlsStreamR → Poll (Except IoErr TlsStreamR)

/-- `impl AsyncRead for Stream`: `poll_read` matches on the active variant
and delegates to that variant's inner stream, rewrapping its successor
state in the same variant. -/
def Stream.poll_read (env : IoEnv) : Stream → Poll (Except IoErr (Stream × Bytes))
  | Stream.TcpStream tcp_stream =>
    match env.tcpRead tcp_stream with
    | Poll.pending => Poll.pending
    | Poll.ready (Except.error e) => Poll.ready (Except.error e)
    | Poll.ready (Except.ok (s, bs)) => Poll.ready (Except.ok (Stream.TcpStream s, bs))
  | Stream.TlsStream tls_stream =>
    match env.tlsRead tls_stream with
    | Poll.pending => Poll.pending
    | Poll.ready (Except.error e) => Poll.ready (Except.error e)
    | Poll.ready (Except.ok (s, bs)) => Poll.ready (Except.ok (Stream.TlsStream s, bs))

/-- `impl AsyncWrite for Stream`, `poll_write`: dispatch on the active
variant. -/
def Stream.poll_write (env : IoEnv) (buf : Bytes) :
    Stream → Poll (Except IoErr (Stream × Nat))
  | Stream.TcpStream tcp_stream =>
    match env.tcpWrite tcp_stream buf with
    | Poll.pending => Poll.pending
    | Poll.ready (Except.error e) => Poll.ready (Except.error e)
    | Poll.ready (Except.ok (s, n)) => Poll.ready (Except.ok (Stream.TcpStream s, n))
  | Stream.TlsStream tls_stream =>
    match env.tlsWrite tls_stream buf with
    | Poll.pending => Poll.pending
    | Poll.ready (Except.error e) => Poll.ready (Except.error e)
    | Poll.ready (Except.ok (s, n)) => Poll.ready (Except.ok (Stream.TlsStream s, n))

/-- `impl AsyncWrite for Stream`, `poll_flush`: dispatch on the active
variant. -/
def Stream.poll_flush (env : IoEnv) : Stream → Poll (Except IoErr Stream)
  | Stream.TcpStream tcp_stream =>
    match env.tcpFlush tcp_stream with
    | Poll.pending => Poll.pending
    | Poll.ready (Except.error e) => Poll.ready (Except.error e)
    | Poll.ready (Except.ok s) => Poll.ready (Except.ok (Stream.TcpStream s))
  | Stream.TlsStream tls_stream =>
    match env.tlsFlush tls_stream with
    | Poll.pending => Poll.pending
    | Poll.ready (Except.error e) => Poll.ready (Except.error e)
    | Poll.ready (Except.ok s) => Poll.ready (Except.ok (Stream.TlsStream s))

/-- `impl AsyncWrite for Stream`, `poll_shutdown`: dispatch on the active
variant. -/
def Stream.poll_shutdown (env : IoEnv) : Stream → Poll (Except IoErr Stream)
  | Stream.TcpStream tcp_stream =>
    match env.tcpShutdown tcp_stream with
    | Poll.pending => Poll.pending
    | Poll.ready (Except.error e) => Poll.ready (Except.error e)
    | Poll.ready (Except.ok s) => Poll.ready (Except.ok (Stream.TcpStream s))
  | Stream.TlsStream tls_stream =>
    match env.tlsShutdown tls_stream with
    | Poll.pending => Poll.pending
    | Poll.ready (Except.error e) => Poll.ready (Except.error e)
    | Poll.ready (Except.ok s) => Poll.ready (Except.ok (Stream.TlsStream s))

/-- Which variant is active: `true` for the encrypted (`TlsStream`)
variant. -/
def Stream.isTls : Stream → Bool
  | Stream.TcpStream _ => false
  | Stream.TlsStream _ => true

/-- The successor stream of a poll outcome, when the operation completed
successfully. -/
def afterStream : Poll (Except IoErr Stream) → Option Stream
  | Poll.ready (Except.ok s) => some s
  | _ => none

/-- The successor stream of a read/write poll outcome, when the operation
completed successfully. -/
def afterStreamFst {β : Type} : Poll (Except IoErr (Stream × β)) → Option Stream
  | Poll.ready (Except.ok (s, _)) => some s
  | _ => none

/-! ## lazy_static state model (shared default connector lifecycle) -/

/-- The value the `tls-rustls` default connector initializer produces. -/
def defaultRustlsConnector : RustlsConnector := ⟨nativeRoots, none⟩

/-- The value the `tls-native` default connector initializer produces. -/
def defaultNativeConnector : NativeConnector := ⟨none⟩

/-- The connector-selection step of the `tls-rustls` `Stream::new_tls`, made
stateful to model `lazy_static`: the process-wide cell starts empty; the
first dereference of `TLS_CONNECTOR` runs `tls_connector(None)` and stores
the result; later dereferences reuse the stored value. When `sasl` is
present the code builds a fresh `tls_connector(sasl)` and never touches the
cell. Returns the connector obtained (or a panic) and the cell
afterwards. -/
def selectConnectorRustls (cell : Option RustlsConnector)
    (sasl : Option PemBytes) : Panics RustlsConnector × Option RustlsConnector :=
  if sasl.isSome then (tls_connector_rustls sasl, cell)
  else
    match cell with
    | some c => (Panics.ok c, some c)
    | none =>
      match tls_connector_rustls none with
      | Panics.ok c => (Panics.ok c, some c)
      | Panics.panicked msg => (Panics.panicked msg, none)

/-- The connector-selection step of the `tls-native` `Stream::new_tls`,
stateful over the `lazy_static` cell, as in `selectConnectorRustls`. -/
def selectConnectorNative (cell : Option NativeConnector)
    (sasl : Option PemBytes) : Panics NativeConnector × Option NativeConnector :=
  if sasl.isSome then (tls_connector_native sasl, cell)
  else
    match cell with
    | some c => (Panics.ok c, some c)
    | none =>
      match tls_connector_native none with
      | Panics.ok c => (Panics.ok c, some c)
      | Panics.panicked msg => (Panics.panicked msg, none)

/-- The process-wide cell after a whole sequence of encrypted-connection
attempts (each carrying its optional client identity), `tls-rustls`
build. -/
def runConnectorRequestsRustls (cell : Option RustlsConnector)
    (reqs : List (Option PemBytes)) : Option RustlsConnector :=
  match reqs with
  | [] => cell
  | sasl :: rest =>
    runConnectorRequestsRustls (selectConnectorRustls cell sasl).2 rest

/-! ## Concrete fixtures used by witnesses and counterexamples -/

/-- Did the Rust code return a value (as opposed to panicking)? -/
def Panics.isOk {α : Type} : Panics α → Bool
  | Panics.ok _ => true
  | Panics.panicked _ => false

/-- Did the Rust code panic? -/
def Panics.isPanic {α : Type} : Panics α → Bool
  | Panics.ok _ => false
  | Panics.panicked _ => true

/-- A sample resolved socket address. -/
def addr0 : SocketAddr := ⟨2130706433, 6697⟩

/-- A second sample address, at which connecting fails in some fixtures. -/
def addr1 : SocketAddr := ⟨2130706433, 6667⟩

/-- A sample connected TCP stream. -/
def tcp0 : TcpStreamR := ⟨7⟩

/-- A sample negotiated TLS session over `tcp0`. -/
def tls0 : TlsStreamR := ⟨tcp0, 3⟩

/-- Native-build environment: TCP connect succeeds everywhere, every
handshake fails (e.g. host-name verification mismatch). -/
def envNativeHsFail : NativeNetEnv :=
  ⟨fun _ => Except.ok tcp0, fun _ _ _ => Except.error ⟨99⟩⟩

/-- Rustls-build environment: TCP connect succeeds everywhere, every
handshake fails; per the `tokio_rustls` signature the failure is an
`io::Error` value wrapping the TLS fault. -/
def envRustlsHsFail : RustlsNetEnv :=
  ⟨fun _ => Except.ok tcp0, fun _ _ _ => Except.error ⟨99⟩⟩

/-- Native-build environment: connect fails at `addr1`, succeeds elsewhere;
handshakes succeed. -/
def envNativeOk : NativeNetEnv :=
  ⟨fun a => if a = addr1 then Except.error ⟨111⟩ else Except.ok tcp0,
   fun _ _ _ => Except.ok tls0⟩

/-- Rustls-build environment: connect fails at `addr1`, succeeds elsewhere;
handshakes succeed. -/
def envRustlsOk : RustlsNetEnv :=
  ⟨fun a => if a = addr1 then Except.error ⟨111⟩ else Except.ok tcp0,
   fun _ _ _ => Except.ok tls0⟩

/-- A well-formed client identity: one certificate and one PKCS#8 key. -/
def goodPem : PemBytes := ⟨true, [PemBlock.certificate 11, PemBlock.pkcs8Key 21]⟩

/-- A well-formed PEM input holding two certificates and two keys. -/
def multiPem : PemBytes :=
  ⟨true, [PemBlock.certificate 11, PemBlock.pkcs8Key 21,
          PemBlock.certificate 12, PemBlock.pkcs8Key 22]⟩

/-- A well-formed PEM input holding a certificate but no private key. -/
def noKeyPem : PemBytes := ⟨true, [PemBlock.certificate 11]⟩

/-! ## Claim theorems -/

/-- C3: for every address, `Stream::new_tcp` either succeeds with the
`TcpStream` (plain) variant wrapping the raw connection, or fails with
`StreamError::IoError` (a transport failure); it never produces a
`TlsError` and never the `TlsStream` variant. -/
theorem new_tcp_plain_or_transport
    (tcpConnect : SocketAddr → Except IoErr TcpStreamR) (addr : SocketAddr) :
    (∃ t, Stream.new_tcp tcpConnect addr = Except.ok (Stream.TcpStream t)) ∨
    (∃ e, Stream.new_tcp tcpConnect addr = Except.error (StreamError.IoError e)) := by
  unfold Stream.new_tcp
  cases tcpConnect addr with
  | ok t => exact Or.inl ⟨t, rfl⟩
  | error e => exact Or.inr ⟨e, rfl⟩

/-- C5: every failure value of the stream module is exactly one of two
kinds — a transport failure (`IoError`) or an encryption failure
(`TlsError`) — and the two `From` conversions that both construction paths
funnel through map the TLS-layer error type to the encryption kind and
`io::Error` to the transport kind. -/
theorem streamError_exactly_two_kinds (err : StreamError) (e : TlsErr) (i : IoErr) :
    ((err.isTransport = true ∧ err.isEncryption = false) ∨
     (err.isEncryption = true ∧ err.isTransport = false)) ∧
    (StreamError.fromTls e).isEncryption = true ∧
    (StreamError.fromTls e).isTransport = false ∧
    (StreamError.fromIo i).isTransport = true ∧
    (StreamError.fromIo i).isEncryption = false := by
  refine ⟨?_, rfl, rfl, rfl, rfl⟩
  cases err with
  | TlsError t => exact Or.inr ⟨rfl, rfl⟩
  | IoError j => exact Or.inl ⟨rfl, rfl⟩

/-- C9: in the rustls build, a host name that `ServerName::try_from` cannot
parse (here the empty string) makes `new_tls` panic on the `unwrap`, even
though the raw TCP connection succeeded, instead of returning a classified
`StreamError`. -/
theorem new_tls_rustls_bad_servername_panics :
    ServerName_try_from "" = none ∧
    envRustlsOk.tcpConnect addr0 = Except.ok tcp0 ∧
    Stream.new_tls_rustls envRustlsOk addr0 "" none =
      Panics.panicked "ServerName::try_from(host_name).unwrap()" := by
  refine ⟨rfl, rfl, rfl⟩

/-- C10: in the rustls build, `tls_connector` enforces no upper bound on
the number of certificates or keys in the client-identity PEM: whenever the
input is well-formed PEM whose last certificate is `c` and whose last
PKCS#8 key is `k` (regardless of how many of each precede them), it
silently builds the client identity from `c` and `k` and reports no
error. -/
theorem tls_connector_rustls_uses_last_blocks (pem : PemBytes) (c k : Nat)
    (hw : pem.wellFormed = true)
    (hc : (pemCerts pem.blocks).getLast? = some c)
    (hk : (pemKeys pem.blocks).getLast? = some k) :
    tls_connector_rustls (some pem) = Panics.ok ⟨nativeRoots, some ([c], k)⟩ := by
  unfold tls_connector_rustls rustls_pemfile_certs rustls_pemfile_pkcs8_private_keys
  simp only [hw, if_pos]
  rw [hc, hk]

/-- Witness for C10: a PEM input with two certificates and two private keys
is accepted without error and the last certificate and last key (payloads
12 and 22) are the ones used. -/
theorem tls_connector_rustls_uses_last_blocks_witness :
    multiPem.wellFormed = true ∧
    (pemCerts multiPem.blocks).getLast? = some 12 ∧
    (pemKeys multiPem.blocks).getLast? = some 22 ∧
    tls_connector_rustls (some multiPem) = Panics.ok ⟨nativeRoots, some ([12], 22)⟩ :=
  ⟨rfl, by decide, by decide,
   tls_connector_rustls_uses_last_blocks multiPem 12 22 rfl (by decide) (by decide)⟩

/-- Counterexample to C1: in the rustls build, with the raw TCP connection
succeeding and the TLS handshake failing, `new_tls` returns
`StreamError::IoError` — a Transport failure — not `StreamError::TlsError`,
because `tokio_rustls::TlsConnector::connect` reports handshake failures as
`io::Error` values and `?` converts them via `From<std::io::Error>`. -/
theorem new_tls_rustls_handshake_fail_yields_ioerror :
    envRustlsHsFail.tcpConnect addr0 = Except.ok tcp0 ∧
    envRustlsHsFail.handshake defaultRustlsConnector
      (ServerName.dnsName "chat.freenode.net") tcp0 = Except.error ⟨99⟩ ∧
    Stream.new_tls_rustls envRustlsHsFail addr0 "chat.freenode.net" none =
      Panics.ok (Except.error (StreamError.IoError ⟨99⟩)) := by
  refine ⟨rfl, rfl, rfl⟩

/-- C1 (amended): when the raw connection succeeds, the connector is
obtained, and the handshake fails, the tls-native build returns
`StreamError::TlsError` (an Encryption failure) while the tls-rustls build
returns `StreamError::IoError` (the handshake `io::Error`); in both builds
the call returns an error, so no `Stream` value is constructed. -/
theorem new_tls_handshake_failure_classification
    (envN : NativeNetEnv) (envR : RustlsNetEnv) (addr : SocketAddr)
    (host : String) (sasl : Option PemBytes) (tcp : TcpStreamR)
    (connN : NativeConnector) (connR : RustlsConnector) (name : ServerName)
    (eN : TlsErr) (eR : IoErr)
    (hNc : envN.tcpConnect addr = Except.ok tcp)
    (hNconn : (if sasl.isSome then tls_connector_native sasl
               else TLS_CONNECTOR_native) = Panics.ok connN)
    (hNhs : envN.handshake connN host tcp = Except.error eN)
    (hRc : envR.tcpConnect addr = Except.ok tcp)
    (hRn : ServerName_try_from host = some name)
    (hRconn : (if sasl.isSome then tls_connector_rustls sasl
               else TLS_CONNECTOR_rustls) = Panics.ok connR)
    (hRhs : envR.handshake connR name tcp = Except.error eR) :
    Stream.new_tls_native envN addr host sasl =
      Panics.ok (Except.error (StreamError.TlsError eN)) ∧
    Stream.new_tls_rustls envR addr host sasl =
      Panics.ok (Except.error (StreamError.IoError eR)) := by
  constructor
  · unfold Stream.new_tls_native
    simp only [hNc, hNconn, hNhs]
    rfl
  · unfold Stream.new_tls_rustls
    simp only [hRc, hRn, hRconn, hRhs]
    rfl

/-- Witness for C1 (amended): concrete environments in which the raw
connection succeeds and the handshake fails, with no client identity; the
native build yields `TlsError` and the rustls build yields `IoError`. -/
theorem new_tls_handshake_failure_classification_witness :
    envNativeHsFail.tcpConnect addr0 = Except.ok tcp0 ∧
    envNativeHsFail.handshake defaultNativeConnector "chat.freenode.net" tcp0 =
      Except.error ⟨99⟩ ∧
    ServerName_try_from "chat.freenode.net" =
      some (ServerName.dnsName "chat.freenode.net") ∧
    Stream.new_tls_native envNativeHsFail addr0 "chat.freenode.net" none =
      Panics.ok (Except.error (StreamError.TlsError ⟨99⟩)) ∧
    Stream.new_tls_rustls envRustlsHsFail addr0 "chat.freenode.net" none =
      Panics.ok (Except.error (StreamError.IoError ⟨99⟩)) := by
  have h := new_tls_handshake_failure_classification envNativeHsFail envRustlsHsFail
    addr0 "chat.freenode.net" none tcp0 defaultNativeConnector
    defaultRustlsConnector (ServerName.dnsName "chat.freenode.net") ⟨99⟩ ⟨99⟩
    rfl rfl rfl rfl (by decide) rfl rfl
  exact ⟨rfl, rfl, by decide, h.1, h.2⟩

/-- Counterexample to C2: a well-formed client-identity PEM that contains a
certificate but no private key makes context construction panic (the
`.expect` aborts) in the rustls build; the connection attempt yields no
value at all — in particular no `StreamError::TlsError` is surfaced to the
caller. -/
theorem tls_connector_rustls_missing_key_panics :
    tls_connector_rustls (some noKeyPem) =
      Panics.panicked "Cert PEM must have at least one private key" ∧
    Stream.new_tls_rustls envRustlsOk addr0 "chat.freenode.net" (some noKeyPem) =
      Panics.panicked "Cert PEM must have at least one private key" ∧
    Panics.isOk (Stream.new_tls_rustls envRustlsOk addr0 "chat.freenode.net"
      (some noKeyPem)) = false := by
  refine ⟨rfl, rfl, rfl⟩

/-- C2 (amended): for every client identity whose PEM bytes are malformed
or are missing the certificate or the private key, context construction
panics (a fatal configuration abort, not a returned failure value) in both
builds, and the connection attempt panics before any handshake is
performed: no handshake ever runs with an unparsed identity, but the fault
surfaces as a panic rather than as an Encryption failure value. -/
theorem client_identity_parse_failure_panics
    (envN : NativeNetEnv) (envR : RustlsNetEnv) (addr : SocketAddr)
    (host : String) (pem : PemBytes) (tcp : TcpStreamR) (name : ServerName)
    (hNc : envN.tcpConnect addr = Except.ok tcp)
    (hRc : envR.tcpConnect addr = Except.ok tcp)
    (hRn : ServerName_try_from host = some name)
    (hmal : pem.wellFormed = false ∨ pemCerts pem.blocks = [] ∨
            pemKeys pem.blocks = []) :
    Panics.isOk (tls_connector_native (some pem)) = false ∧
    Panics.isOk (tls_connector_rustls (some pem)) = false ∧
    Panics.isPanic (Stream.new_tls_native envN addr host (some pem)) = true ∧
    Panics.isPanic (Stream.new_tls_rustls envR addr host (some pem)) = true := by
  have hnat : ∃ m, tls_connector_native (some pem) = Panics.panicked m := by
    simp only [tls_connector_native, Identity_from_pkcs8]
    rcases hmal with h | h | h
    · simp only [h]
      exact ⟨_, rfl⟩
    · cases hw : pem.wellFormed with
      | false => exact ⟨_, rfl⟩
      | true =>
        rw [h]
        cases hk : (pemKeys pem.blocks).head? with
        | none => exact ⟨_, rfl⟩
        | some k => exact ⟨_, rfl⟩
    · cases hw : pem.wellFormed with
      | false => exact ⟨_, rfl⟩
      | true =>
        rw [h]
        cases hcs : pemCerts pem.blocks with
        | nil => exact ⟨_, rfl⟩
        | cons c cs => exact ⟨_, rfl⟩
  have hrus : ∃ m, tls_connector_rustls (some pem) = Panics.panicked m := by
    simp only [tls_connector_rustls, rustls_pemfile_certs,
      rustls_pemfile_pkcs8_private_keys]
    rcases hmal with h | h | h
    · simp only [h]
      exact ⟨_, rfl⟩
    · cases hw : pem.wellFormed with
      | false => exact ⟨_, rfl⟩
      | true =>
        rw [h]
        exact ⟨_, rfl⟩
    · cases hw : pem.wellFormed with
      | false => exact ⟨_, rfl⟩
      | true =>
        rw [h]
        simp only [eq_self_iff_true, if_true]
        cases hcs : (pemCerts pem.blocks).getLast? with
        | none => exact ⟨_, rfl⟩
        | some c => exact ⟨_, rfl⟩
  obtain ⟨mN, hmN⟩ := hnat
  obtain ⟨mR, hmR⟩ := hrus
  refine ⟨by rw [hmN]; rfl, by rw [hmR]; rfl, ?_, ?_⟩
  · unfold Stream.new_tls_native
    simp only [hNc, Option.isSome_some, if_true, hmN]
    rfl
  · unfold Stream.new_tls_rustls
    simp only [hRc, hRn, Option.isSome_some, if_true, hmR]
    rfl

/-- Witness for C2 (amended): the key-less PEM input, in environments where
the TCP connection succeeds and the host name is valid, makes both builds
panic during context construction. -/
theorem client_identity_parse_failure_panics_witness :
    envNativeOk.tcpConnect addr0 = Except.ok tcp0 ∧
    envRustlsOk.tcpConnect addr0 = Except.ok tcp0 ∧
    ServerName_try_from "chat.freenode.net" =
      some (ServerName.dnsName "chat.freenode.net") ∧
    (noKeyPem.wellFormed = false ∨ pemCerts noKeyPem.blocks = [] ∨
     pemKeys noKeyPem.blocks = []) ∧
    Panics.isOk (tls_connector_native (some noKeyPem)) = false ∧
    Panics.isOk (tls_connector_rustls (some noKeyPem)) = false ∧
    Panics.isPanic (Stream.new_tls_native envNativeOk addr0 "chat.freenode.net"
      (some noKeyPem)) = true ∧
    Panics.isPanic (Stream.new_tls_rustls envRustlsOk addr0 "chat.freenode.net"
      (some noKeyPem)) = true := by
  have h := client_identity_parse_failure_panics envNativeOk envRustlsOk addr0
    "chat.freenode.net" noKeyPem tcp0 (ServerName.dnsName "chat.freenode.net")
    rfl rfl (by decide) (Or.inr (Or.inr (by decide)))
  exact ⟨rfl, rfl, by decide, Or.inr (Or.inr (by decide)),
    h.1, h.2.1, h.2.2.1, h.2.2.2⟩

/-- C4: in both builds, `new_tls` first opens the raw connection — a
failing connect at `addrF` yields a Transport failure (`IoError`) — and on
a successful connect at `addrS` it obtains the encryption context (the
freshly built `tls_connector(sasl)` when a client identity is present, the
shared `TLS_CONNECTOR` default otherwise), performs the handshake against
`host` (the rustls build first converting `host` to a `ServerName`), and on
handshake success returns the Encrypted (`TlsStream`) variant. -/
theorem new_tls_sequencing
    (envN : NativeNetEnv) (envR : RustlsNetEnv) (addrF addrS : SocketAddr)
    (host : String) (sasl : Option PemBytes) (e : IoErr) (tcp : TcpStreamR)
    (connN : NativeConnector) (connR : RustlsConnector) (name : ServerName)
    (tlsN tlsR : TlsStreamR)
    (hNf : envN.tcpConnect addrF = Except.error e)
    (hRf : envR.tcpConnect addrF = Except.error e)
    (hNs : envN.tcpConnect addrS = Except.ok tcp)
    (hRs : envR.tcpConnect addrS = Except.ok tcp)
    (hNconn : (if sasl.isSome then tls_connector_native sasl
               else TLS_CONNECTOR_native) = Panics.ok connN)
    (hRn : ServerName_try_from host = some name)
    (hRconn : (if sasl.isSome then tls_connector_rustls sasl
               else TLS_CONNECTOR_rustls) = Panics.ok connR)
    (hNhs : envN.handshake connN host tcp = Except.ok tlsN)
    (hRhs : envR.handshake connR name tcp = Except.ok tlsR) :
    Stream.new_tls_native envN addrF host sasl =
      Panics.ok (Except.error (StreamError.IoError e)) ∧
    Stream.new_tls_rustls envR addrF host sasl =
      Panics.ok (Except.error (StreamError.IoError e)) ∧
    Stream.new_tls_native envN addrS host sasl =
      Panics.ok (Except.ok (Stream.TlsStream tlsN)) ∧
    Stream.new_tls_rustls envR addrS host sasl =
      Panics.ok (Except.ok (Stream.TlsStream tlsR)) := by
  refine ⟨?_, ?_, ?_, ?_⟩
  · unfold Stream.new_tls_native
    simp only [hNf]
    rfl
  · unfold Stream.new_tls_rustls
    simp only [hRf]
    rfl
  · unfold Stream.new_tls_native
    simp only [hNs, hNconn, hNhs]
  · unfold Stream.new_tls_rustls
    simp only [hRs, hRn, hRconn, hRhs]

/-- Witness for C4: concrete environments in which `addr1` refuses the raw
connection and `addr0` accepts it, with a present client identity
(`goodPem`), exercising the fresh per-connection context path end to
end. -/
theorem new_tls_sequencing_witness :
    envNativeOk.tcpConnect addr1 = Except.error ⟨111⟩ ∧
    envRustlsOk.tcpConnect addr1 = Except.error ⟨111⟩ ∧
    envNativeOk.tcpConnect addr0 = Except.ok tcp0 ∧
    envRustlsOk.tcpConnect addr0 = Except.ok tcp0 ∧
    tls_connector_native (some goodPem) = Panics.ok ⟨some ⟨[11], 21⟩⟩ ∧
    tls_connector_rustls (some goodPem) = Panics.ok ⟨nativeRoots, some ([11], 21)⟩ ∧
    Stream.new_tls_native envNativeOk addr1 "chat.freenode.net" (some goodPem) =
      Panics.ok (Except.error (StreamError.IoError ⟨111⟩)) ∧
    Stream.new_tls_rustls envRustlsOk addr1 "chat.freenode.net" (some goodPem) =
      Panics.ok (Except.error (StreamError.IoError ⟨111⟩)) ∧
    Stream.new_tls_native envNativeOk addr0 "chat.freenode.net" (some goodPem) =
      Panics.ok (Except.ok (Stream.TlsStream tls0)) ∧
    Stream.new_tls_rustls envRustlsOk addr0 "chat.freenode.net" (some goodPem) =
      Panics.ok (Except.ok (Stream.TlsStream tls0)) := by
  have h := new_tls_sequencing envNativeOk envRustlsOk addr1 addr0
    "chat.freenode.net" (some goodPem) ⟨111⟩ tcp0 ⟨some ⟨[11], 21⟩⟩
    ⟨nativeRoots, some ([11], 21)⟩ (ServerName.dnsName "chat.freenode.net")
    tls0 tls0 rfl rfl rfl rfl rfl (by decide) rfl rfl rfl
  exact ⟨rfl, rfl, rfl, rfl, rfl, rfl, h.1, h.2.1, h.2.2.1, h.2.2.2⟩

/-! ## Helper lemmas (shared; not claim theorems) -/

/-- A successful `poll_read` leaves the active variant unchanged. -/
theorem poll_read_preserves (env : IoEnv) (s : Stream) :
    ((afterStreamFst (Stream.poll_read env s)).all
      fun s2 => s2.isTls == s.isTls) = true := by
  cases s with
  | TcpStream t =>
    simp only [Stream.poll_read]
    cases h : env.tcpRead t with
    | pending => rfl
    | ready r =>
      cases r with
      | error e => rfl
      | ok p => cases p with | mk s2 bs => rfl
  | TlsStream u =>
    simp only [Stream.poll_read]
    cases h : env.tlsRead u with
    | pending => rfl
    | ready r =>
      cases r with
      | error e => rfl
      | ok p => cases p with | mk s2 bs => rfl

/-- A successful `poll_write` leaves the active variant unchanged. -/
theorem poll_write_preserves (env : IoEnv) (buf : Bytes) (s : Stream) :
    ((afterStreamFst (Stream.poll_write env buf s)).all
      fun s2 => s2.isTls == s.isTls) = true := by
  cases s with
  | TcpStream t =>
    simp only [Stream.poll_write]
    cases h : env.tcpWrite t buf with
    | pending => rfl
    | ready r =>
      cases r with
      | error e => rfl
      | ok p => cases p with | mk s2 n => rfl
  | TlsStream u =>
    simp only [Stream.poll_write]
    cases h : env.tlsWrite u buf with
    | pending => rfl
    | ready r =>
      cases r with
      | error e => rfl
      | ok p => cases p with | mk s2 n => rfl

/-- A successful `poll_flush` leaves the active variant unchanged. -/
theorem poll_flush_preserves (env : IoEnv) (s : Stream) :
    ((afterStream (Stream.poll_flush env s)).all
      fun s2 => s2.isTls == s.isTls) = true := by
  cases s with
  | TcpStream t =>
    simp only [Stream.poll_flush]
    cases h : env.tcpFlush t with
    | pending => rfl
    | ready r => cases r with
      | error e => rfl
      | ok s2 => rfl
  | TlsStream u =>
    simp only [Stream.poll_flush]
    cases h : env.tlsFlush u with
    | pending => rfl
    | ready r => cases r with
      | error e => rfl
      | ok s2 => rfl

/-- A successful `poll_shutdown` leaves the active variant unchanged. -/
theorem poll_shutdown_preserves (env : IoEnv) (s : Stream) :
    ((afterStream (Stream.poll_shutdown env s)).all
      fun s2 => s2.isTls == s.isTls) = true := by
  cases s with
  | TcpStream t =>
    simp only [Stream.poll_shutdown]
    cases h : env.tcpShutdown t with
    | pending => rfl
    | ready r => cases r with
      | error e => rfl
      | ok s2 => rfl
  | TlsStream u =>
    simp only [Stream.poll_shutdown]
    cases h : env.tlsShutdown u with
    | pending => rfl
    | ready r => cases r with
      | error e => rfl
      | ok s2 => rfl

/-- C6: every read, write, flush or shutdown on a `Stream` dispatches to
the active variant — on a Plain stream the outcome depends only on the
TCP-side behaviour, on an Encrypted stream only on the TLS-side behaviour —
and whenever the operation completes successfully the successor stream has
the same active variant as before: no operation changes or reallocates the
variant fixed at construction. -/
theorem stream_ops_dispatch_and_preserve_variant
    (env envT envU : IoEnv) (s : Stream) (t : TcpStreamR) (u : TlsStreamR)
    (buf : Bytes)
    (htcp : env.tcpRead = envT.tcpRead ∧ env.tcpWrite = envT.tcpWrite ∧
            env.tcpFlush = envT.tcpFlush ∧ env.tcpShutdown = envT.tcpShutdown)
    (htls : env.tlsRead = envU.tlsRead ∧ env.tlsWrite = envU.tlsWrite ∧
            env.tlsFlush = envU.tlsFlush ∧ env.tlsShutdown = envU.tlsShutdown) :
    ((afterStreamFst (Stream.poll_read env s)).all
      fun s2 => s2.isTls == s.isTls) = true ∧
    ((afterStreamFst (Stream.poll_write env buf s)).all
      fun s2 => s2.isTls == s.isTls) = true ∧
    ((afterStream (Stream.poll_flush env s)).all
      fun s2 => s2.isTls == s.isTls) = true ∧
    ((afterStream (Stream.poll_shutdown env s)).all
      fun s2 => s2.isTls == s.isTls) = true ∧
    Stream.poll_read env (Stream.TcpStream t) =
      Stream.poll_read envT (Stream.TcpStream t) ∧
    Stream.poll_write env buf (Stream.TcpStream t) =
      Stream.poll_write envT buf (Stream.TcpStream t) ∧
    Stream.poll_flush env (Stream.TcpStream t) =
      Stream.poll_flush envT (Stream.TcpStream t) ∧
    Stream.poll_shutdown env (Stream.TcpStream t) =
      Stream.poll_shutdown envT (Stream.TcpStream t) ∧
    Stream.poll_read env (Stream.TlsStream u) =
      Stream.poll_read envU (Stream.TlsStream u) ∧
    Stream.poll_write env buf (Stream.TlsStream u) =
      Stream.poll_write envU buf (Stream.TlsStream u) ∧
    Stream.poll_flush env (Stream.TlsStream u) =
      Stream.poll_flush envU (Stream.TlsStream u) ∧
    Stream.poll_shutdown env (Stream.TlsStream u) =
      Stream.poll_shutdown envU (Stream.TlsStream u) := by
  obtain ⟨hr, hw, hf, hs⟩ := htcp
  obtain ⟨hr2, hw2, hf2, hs2⟩ := htls
  refine ⟨poll_read_preserves env s, poll_write_preserves env buf s,
    poll_flush_preserves env s, poll_shutdown_preserves env s,
    ?_, ?_, ?_, ?_, ?_, ?_, ?_, ?_⟩
  · simp only [Stream.poll_read, hr]
  · simp only [Stream.poll_write, hw]
  · simp only [Stream.poll_flush, hf]
  · simp only [Stream.poll_shutdown, hs]
  · simp only [Stream.poll_read, hr2]
  · simp only [Stream.poll_write, hw2]
  · simp only [Stream.poll_flush, hf2]
  · simp only [Stream.poll_shutdown, hs2]

/-- Fixture TCP-side read behaviour shared between fixture I/O
environments. -/
def tcpReadFx : TcpStreamR → Poll (Except IoErr (TcpStreamR × Bytes)) :=
  fun t => Poll.ready (Except.ok (t, [1]))

/-- Fixture TLS-side read behaviour shared between fixture I/O
environments. -/
def tlsReadFx : TlsStreamR → Poll (Except IoErr (TlsStreamR × Bytes)) :=
  fun u => Poll.ready (Except.ok (u, [2]))

/-- Fixture TCP-side write behaviour. -/
def tcpWriteFx : TcpStreamR → Bytes → Poll (Except IoErr (TcpStreamR × Nat)) :=
  fun t buf => Poll.ready (Except.ok (t, buf.length))

/-- Fixture TLS-side write behaviour. -/
def tlsWriteFx : TlsStreamR → Bytes → Poll (Except IoErr (TlsStreamR × Nat)) :=
  fun u buf => Poll.ready (Except.ok (u, buf.length))

/-- Fixture TCP-side flush behaviour. -/
def tcpFlushFx : TcpStreamR → Poll (Except IoErr TcpStreamR) :=
  fun t => Poll.ready (Except.ok t)

/-- Fixture TLS-side flush behaviour. -/
def tlsFlushFx : TlsStreamR → Poll (Except IoErr TlsStreamR) :=
  fun u => Poll.ready (Except.ok u)

/-- Fixture TCP-side shutdown behaviour. -/
def tcpShutdownFx : TcpStreamR → Poll (Except IoErr TcpStreamR) :=
  fun t => Poll.ready (Except.ok t)

/-- Fixture TLS-side shutdown behaviour. -/
def tlsShutdownFx : TlsStreamR → Poll (Except IoErr TlsStreamR) :=
  fun u => Poll.ready (Except.ok u)

/-- Fixture I/O environment A. -/
def ioEnvA : IoEnv :=
  ⟨tcpReadFx, tlsReadFx, tcpWriteFx, tlsWriteFx,
   tcpFlushFx, tlsFlushFx, tcpShutdownFx, tlsShutdownFx⟩

/-- Fixture I/O environment B: same TCP-side behaviour as A, different
TLS-side behaviour. -/
def ioEnvB : IoEnv :=
  ⟨tcpReadFx, fun _ => Poll.pending, tcpWriteFx, fun _ _ => Poll.pending,
   tcpFlushFx, fun _ => Poll.pending, tcpShutdownFx, fun _ => Poll.pending⟩

/-- Fixture I/O environment C: same TLS-side behaviour as A, different
TCP-side behaviour. -/
def ioEnvC : IoEnv :=
  ⟨fun _ => Poll.pending, tlsReadFx, fun _ _ => Poll.pending, tlsWriteFx,
   fun _ => Poll.pending, tlsFlushFx, fun _ => Poll.pending, tlsShutdownFx⟩

/-- Witness for C6: concrete environments agreeing on the TCP side
(A and B) resp. the TLS side (A and C); each operation on a concrete
stream preserves the variant and depends only on the active variant's
side of the environment. -/
theorem stream_ops_dispatch_and_preserve_variant_witness :
    (ioEnvA.tcpRead = ioEnvB.tcpRead ∧ ioEnvA.tcpWrite = ioEnvB.tcpWrite ∧
     ioEnvA.tcpFlush = ioEnvB.tcpFlush ∧ ioEnvA.tcpShutdown = ioEnvB.tcpShutdown) ∧
    (ioEnvA.tlsRead = ioEnvC.tlsRead ∧ ioEnvA.tlsWrite = ioEnvC.tlsWrite ∧
     ioEnvA.tlsFlush = ioEnvC.tlsFlush ∧ ioEnvA.tlsShutdown = ioEnvC.tlsShutdown) ∧
    (((afterStreamFst (Stream.poll_read ioEnvA (Stream.TcpStream tcp0))).all
       fun s2 => s2.isTls == (Stream.TcpStream tcp0).isTls) = true ∧
     ((afterStreamFst (Stream.poll_write ioEnvA [5] (Stream.TcpStream tcp0))).all
       fun s2 => s2.isTls == (Stream.TcpStream tcp0).isTls) = true ∧
     ((afterStream (Stream.poll_flush ioEnvA (Stream.TcpStream tcp0))).all
       fun s2 => s2.isTls == (Stream.TcpStream tcp0).isTls) = true ∧
     ((afterStream (Stream.poll_shutdown ioEnvA (Stream.TcpStream tcp0))).all
       fun s2 => s2.isTls == (Stream.TcpStream tcp0).isTls) = true ∧
     Stream.poll_read ioEnvA (Stream.TcpStream tcp0) =
       Stream.poll_read ioEnvB (Stream.TcpStream tcp0) ∧
     Stream.poll_write ioEnvA [5] (Stream.TcpStream tcp0) =
       Stream.poll_write ioEnvB [5] (Stream.TcpStream tcp0) ∧
     Stream.poll_flush ioEnvA (Stream.TcpStream tcp0) =
       Stream.poll_flush ioEnvB (Stream.TcpStream tcp0) ∧
     Stream.poll_shutdown ioEnvA (Stream.TcpStream tcp0) =
       Stream.poll_shutdown ioEnvB (Stream.TcpStream tcp0) ∧
     Stream.poll_read ioEnvA (Stream.TlsStream tls0) =
       Stream.poll_read ioEnvC (Stream.TlsStream tls0) ∧
     Stream.poll_write ioEnvA [5] (Stream.TlsStream tls0) =
       Stream.poll_write ioEnvC [5] (Stream.TlsStream tls0) ∧
     Stream.poll_flush ioEnvA (Stream.TlsStream tls0) =
       Stream.poll_flush ioEnvC (Stream.TlsStream tls0) ∧
     Stream.poll_shutdown ioEnvA (Stream.TlsStream tls0) =
       Stream.poll_shutdown ioEnvC (Stream.TlsStream tls0)) :=
  ⟨⟨rfl, rfl, rfl, rfl⟩, ⟨rfl, rfl, rfl, rfl⟩,
   stream_ops_dispatch_and_preserve_variant ioEnvA ioEnvB ioEnvC
     (Stream.TcpStream tcp0) tcp0 tls0 [5]
     ⟨rfl, rfl, rfl, rfl⟩ ⟨rfl, rfl, rfl, rfl⟩⟩

/-- Once the lazy cell holds a connector, a connection attempt never
changes it (`tls-rustls` build). -/
theorem selectConnectorRustls_cell_stable (c : RustlsConnector)
    (sasl : Option PemBytes) : (selectConnectorRustls (some c) sasl).2 = some c := by
  unfold selectConnectorRustls
  cases sasl with
  | none => rfl
  | some pem => rfl

/-- Once the lazy cell holds a connector, any sequence of connection
attempts leaves it unchanged (`tls-rustls` build). -/
theorem runConnectorRequestsRustls_some (c : RustlsConnector)
    (reqs : List (Option PemBytes)) :
    runConnectorRequestsRustls (some c) reqs = some c := by
  induction reqs with
  | nil => rfl
  | cons sasl rest ih =>
    unfold runConnectorRequestsRustls
    rw [selectConnectorRustls_cell_stable]
    exact ih

/-- Starting from process startup (empty cell), the cell only ever holds
the default no-identity connector (`tls-rustls` build). -/
theorem runConnectorRequestsRustls_none (reqs : List (Option PemBytes)) :
    runConnectorRequestsRustls none reqs = none ∨
    runConnectorRequestsRustls none reqs = some defaultRustlsConnector := by
  induction reqs with
  | nil => exact Or.inl rfl
  | cons sasl rest ih =>
    unfold runConnectorRequestsRustls
    cases sasl with
    | none =>
      exact Or.inr (runConnectorRequestsRustls_some defaultRustlsConnector rest)
    | some pem => exact ih

/-- C7: the shared default context is the value of `tls_connector(None)` —
it carries no client identity — and the lazy cell modelling `lazy_static`
is written at most once, with exactly that default value: an attempt that
supplies a client identity builds the fresh `tls_connector(sasl)` and
leaves the cell untouched, a cell that already holds the default is reused
unchanged by every later attempt, and along any sequence of attempts from
process startup the cell only ever holds the default no-identity
connector. -/
theorem tls_connector_default_lifecycle
    (cellR : Option RustlsConnector) (cellN : Option NativeConnector)
    (pem : PemBytes) (sasl : Option PemBytes) (c : RustlsConnector)
    (cN : NativeConnector) (reqs : List (Option PemBytes)) :
    TLS_CONNECTOR_rustls = Panics.ok defaultRustlsConnector ∧
    TLS_CONNECTOR_native = Panics.ok defaultNativeConnector ∧
    defaultRustlsConnector.clientAuth = none ∧
    defaultNativeConnector.identity = none ∧
    (selectConnectorRustls cellR (some pem)).1 = tls_connector_rustls (some pem) ∧
    (selectConnectorRustls cellR (some pem)).2 = cellR ∧
    (selectConnectorNative cellN (some pem)).1 = tls_connector_native (some pem) ∧
    (selectConnectorNative cellN (some pem)).2 = cellN ∧
    (selectConnectorRustls (some c) sasl).2 = some c ∧
    (selectConnectorNative (some cN) sasl).2 = some cN ∧
    runConnectorRequestsRustls (some c) reqs = some c ∧
    (runConnectorRequestsRustls none reqs = none ∨
     runConnectorRequestsRustls none reqs = some defaultRustlsConnector) := by
  refine ⟨rfl, rfl, rfl, rfl, rfl, rfl, rfl, rfl,
    selectConnectorRustls_cell_stable c sasl, ?_,
    runConnectorRequestsRustls_some c reqs,
    runConnectorRequestsRustls_none reqs⟩
  unfold selectConnectorNative
  cases sasl with
  | none => rfl
  | some p => rfl

end TinyStream
